import Mathlib

/-!
Verification of the redux-box core: the per-module reducer builder
(`dist/reducer.js`, function `getReducer`) and the store assembly
(`src/createStore.js`, function `createStore`), shallowly embedded in Lean.

Module state is embedded polymorphically: a JS state object becomes a value
of an arbitrary type `σ`, and a mutation handler becomes a function from his
draft's current contents to the draft's new contents (or a thrown error).
-/

namespace ReduxBox

/-- A dispatched action: a `type` tag plus a payload. JS spreads arbitrary
extra fields on the action object; they are modelled as one value of type
`π` (for example the `item` field of `{type: 'ADD_ITEM', item: 'x'}`). -/
structure Action (π : Type) where
  type : String
  payload : π
deriving DecidableEq, Repr

/-- Lines written through the console logging interface
(`console.log` / `console.error`). -/
abbrev Logs := List String

/-- Outcome of running a mutation handler on an immer draft: either the
draft's new contents, or a thrown JS error (modelled by its message), paired
with the console lines the handler emitted. -/
abbrev HandlerResult (σ : Type) := Except String σ × Logs

/-- A mutation handler `(state, action) -> void`: it receives the immer draft
and mutates it in place. At the value level it maps the draft's current
contents and the action to the draft's final contents, or throws. -/
abbrev Handler (σ π : Type) := σ → Action π → HandlerResult σ

/-- JS property read `m[k]` on an object whose own enumerable properties are
the entries of `m` (later entries shadow nothing: keys are unique in a JS
object, and `setKey` below preserves that). Returns `none` for an absent key,
i.e. `undefined`. -/
def lookupKey {α : Type} : List (String × α) → String → Option α
  | [], _ => none
  | (k', v) :: rest, k => if k' = k then some v else lookupKey rest k

/-- JS property write `m[k] = v`: an existing key keeps its position and gets
the new value; a new key is appended at the end of the property list. -/
def setKey {α : Type} : List (String × α) → String → α → List (String × α)
  | [], k, v => [(k, v)]
  | (k', v') :: rest, k, v =>
      if k' = k then (k, v) :: rest else (k', v') :: setKey rest k v

/-- Embeds immer's `produce(state, recipe)` as used at reducer.js lines
48-50: the recipe receives a mutable draft derived from `state`; if the
recipe throws, produce rethrows and no new state is committed; otherwise the
finalized draft (the base state itself when the draft was never modified) is
returned. The base `state` object is never altered. At the value level the
result is the recipe applied to the draft's initial contents, which are the
contents of `state`. -/
def produce {σ : Type} (state : σ) (recipe : σ → HandlerResult σ) : HandlerResult σ :=
  recipe state

/-- The synthetic reset handler injected at reducer.js lines 34-40. Its body
is `try { state = initialState } catch (err) { console.log(...) }`. The
assignment `state = initialState` rebinds the handler's own local parameter
`state` (which holds the immer draft) and performs no write to the draft
object, so the draft is left unchanged. A simple local-variable assignment
cannot throw in JS, so the catch branch and its `console.log` are
unreachable: the handler emits no log and completes normally with the draft
untouched. -/
def resetHandler {σ π : Type} (initialState : σ) : Handler σ π :=
  fun draft _ =>
    let state := initialState
    let _ := state
    (Except.ok draft, [])

/-- The transition function returned by `getReducer` (reducer.js lines
42-53), reading handlers from the (already reset-injected) action list:
`state` defaults to `initialState` when the first argument is `undefined`;
if `actionList[action.type]` is defined the handler is applied to a draft of
`state` through `produce`, and otherwise `state` itself is returned. There
is no try/catch on this path: an error thrown by the handler propagates out
of `produce` to the dispatch caller. -/
def transitionOf {σ π : Type} (actionList' : List (String × Handler σ π))
    (initialState : σ) : Option σ → Action π → HandlerResult σ :=
  fun stateArg action =>
    let state := stateArg.getD initialState
    match lookupKey actionList' action.type with
    | some method => produce state (fun draft => method draft action)
    | none => (Except.ok state, [])

/-- Embeds `getReducer(actionList, initialState, name)` of reducer.js lines
25-54. Line 34 mutates the caller's `actionList` object in place, writing
the injected reset handler at key `name + '__RESET__'`; the returned closure
then reads handlers from that same (mutated) object. The first component of
the result is the caller's action list as observable after the call; the
second is the returned transition function. -/
def getReducer {σ π : Type} (actionList : List (String × Handler σ π))
    (initialState : σ) (name : String) :
    List (String × Handler σ π) × (Option σ → Action π → HandlerResult σ) :=
  let actionList' := setKey actionList (name ++ "__RESET__") (resetHandler initialState)
  (actionList', transitionOf actionList' initialState)

/-- An effect routine (saga). The core never inspects sagas, it only
aggregates them, so an opaque tag suffices. -/
abbrev Saga := String

/-- The observable fields of a redux-box module that the assembly loop of
createStore.js lines 63-72 touches: its initial `state`, its `mutations`
handler map, and its `sagas` field (`none` models an absent / `undefined`
field). -/
structure Module (σ π : Type) where
  state : σ
  mutations : List (String × Handler σ π)
  sagas : Option (List Saga)

/-- One iteration of the module loop of createStore.js lines 63-72,
restricted to the reducer-building step: `getReducer(module.mutations,
module.state)` with the module's name handed to the builder, which mutates
the caller's `module.mutations` object in place (reducer.js line 34). The
first component is the module as observable after the call; the second is
the module's reducer. -/
def buildModule {σ π : Type} (name : String) (m : Module σ π) :
    Module σ π × (Option σ → Action π → HandlerResult σ) :=
  let built := getReducer m.mutations m.state name
  ({ m with mutations := built.1 }, built.2)

/-- JS `acc.concat(field)` applied to a module's `sagas` field
(createStore.js line 66): a defined array argument is spread element-wise
into the result; an `undefined` argument is appended as the single element
`undefined` (modelled as `none`). -/
def jsConcatSagaField (acc : List (Option Saga)) (field : Option (List Saga)) :
    List (Option Saga) :=
  match field with
  | some xs => acc ++ xs.map some
  | none => acc ++ [none]

/-- The saga aggregation of createStore.js lines 60-74: `sagas` starts as
`[]`; each registered module contributes `sagas = sagas.concat(module.sagas)`
in registration order; finally `sagas = config.sagas ?
sagas.concat(config.sagas) : sagas` appends the global sagas when the config
defines them. -/
def createStoreSagas {σ π : Type} (mods : List (Module σ π))
    (configSagas : Option (List Saga)) : List (Option Saga) :=
  let sagas := (mods.map Module.sagas).foldl jsConcatSagaField []
  match configSagas with
  | some g => sagas ++ g.map some
  | none => sagas

/-- Outcome of the external scheduler running `yield all(sagas)` inside the
root saga: the aggregated effect tree either runs to completion or raises an
uncaught error. -/
inductive SagaRunResult where
  | completed
  | failed (err : String)

/-- Embeds `rootSaga` of createStore.js lines 90-96: the whole aggregated
effect tree is run inside one try/catch; an uncaught error is caught at this
top level, reported once via `console.error`, and the generator then simply
returns — there is no rethrow and no retry loop. The result pairs the
console lines emitted with the error propagated to the scheduler (`none`:
the root saga never propagates). -/
def rootSaga (result : SagaRunResult) : Logs × Option String :=
  match result with
  | .completed => ([], none)
  | .failed e => (["[ERROR] Something went wrong in rootSaga: " ++ e], none)

/-- Modelled from the spec: the assembled container of §6 — the external
dispatch/subscription primitive holds the root state, the effect supervisor
runs beside it, and diagnostics accumulate on the console. The repository
only supplies the root reducer and the root saga; the container itself is an
external collaborator. -/
structure StoreModel (ρ : Type) where
  rootState : ρ
  sagaRunning : Bool
  logs : Logs

/-- Modelled from the spec: the external dispatch primitive applies the root
transition function to the current root state; reducing an action does not
consult the effect supervisor's status. -/
def dispatchStep {ρ π : Type} (reduce : ρ → Action π → ρ) (st : StoreModel ρ)
    (a : Action π) : StoreModel ρ :=
  { st with rootState := reduce st.rootState a }

/-- The container's observable step when the aggregated effect tree fails:
`rootSaga` catches, logs once (createStore.js lines 93-95), and completes,
so the supervisor stops running and exactly its one diagnostic is appended;
the root state is untouched. -/
def sagaFailureStep {ρ : Type} (st : StoreModel ρ) (e : String) : StoreModel ρ :=
  { st with sagaRunning := false, logs := st.logs ++ (rootSaga (.failed e)).1 }

/-! Helper lemmas about the embedded JS property operations. -/

/-- After `m[k] = v`, reading `m[k]` yields `v`. -/
theorem lookupKey_setKey_self {α : Type} (m : List (String × α)) (k : String) (v : α) :
    lookupKey (setKey m k v) k = some v := by
  induction m with
  | nil => simp [setKey, lookupKey]
  | cons p rest ih =>
      by_cases h : p.1 = k
      · simp [setKey, h, lookupKey]
      · simp [setKey, h, lookupKey, ih]

/-- After `m[k] = v`, reading any other key is unchanged. -/
theorem lookupKey_setKey_ne {α : Type} (m : List (String × α)) (k k' : String) (v : α)
    (h : k' ≠ k) : lookupKey (setKey m k v) k' = lookupKey m k' := by
  induction m with
  | nil => simp [setKey, lookupKey, Ne.symm h]
  | cons p rest ih =>
      rcases p with ⟨pk, pv⟩
      by_cases hp : pk = k
      · subst hp
        simp [setKey, lookupKey, Ne.symm h]
      · simp [setKey, hp, lookupKey, ih]

/-- The single elements a module's `sagas` field contributes to the
aggregated list: a defined list is spread, an `undefined` field contributes
the one element `undefined`. -/
def moduleSagaElems (field : Option (List Saga)) : List (Option Saga) :=
  match field with
  | some xs => xs.map some
  | none => [none]

theorem jsConcatSagaField_eq (acc : List (Option Saga)) (field : Option (List Saga)) :
    jsConcatSagaField acc field = acc ++ moduleSagaElems field := by
  cases field <;> rfl

/-- The saga fold is the flattening of each module's contribution, in order. -/
theorem foldl_jsConcatSagaField (fields : List (Option (List Saga)))
    (acc : List (Option Saga)) :
    fields.foldl jsConcatSagaField acc = acc ++ fields.flatMap moduleSagaElems := by
  induction fields generalizing acc with
  | nil => simp
  | cons f rest ih =>
      simp only [List.foldl_cons, List.flatMap_cons, ih, jsConcatSagaField_eq,
        List.append_assoc]

/-- The configuration's contribution to the aggregated saga list. -/
def configSagaElems (configSagas : Option (List Saga)) : List (Option Saga) :=
  match configSagas with
  | some g => g.map some
  | none => []

theorem createStoreSagas_eq {σ π : Type} (mods : List (Module σ π))
    (configSagas : Option (List Saga)) :
    createStoreSagas mods configSagas =
      (mods.map Module.sagas).flatMap moduleSagaElems ++ configSagaElems configSagas := by
  cases configSagas <;>
    simp [createStoreSagas, foldl_jsConcatSagaField, configSagaElems]

/-! The concrete `orders` module of spec property P3: initial state
`{items: []}`, a handler for `ADD_ITEM` that pushes `action.item` onto
`state.items`. -/

/-- The state shape `{items: [...]}` of the `orders` example module. -/
structure OrdersState where
  items : List String
deriving DecidableEq, Repr

/-- The `ADD_ITEM` mutation of the example: `state.items.push(action.item)`
on the draft. -/
def addItemHandler : Handler OrdersState String :=
  fun draft action => (Except.ok { items := draft.items ++ [action.payload] }, [])

/-- The caller-supplied mutations object of the `orders` module. -/
def ordersMutations : List (String × Handler OrdersState String) :=
  [("ADD_ITEM", addItemHandler)]

/-- `getReducer(ordersMutations, {items: []}, 'orders')`. -/
def ordersBuilt :
    List (String × Handler OrdersState String) ×
      (Option OrdersState → Action String → HandlerResult OrdersState) :=
  getReducer ordersMutations { items := [] } "orders"

/-- A caller-supplied mutation handler that throws on every invocation. -/
def throwingHandler : Handler OrdersState String :=
  fun _ _ => (Except.error "boom", [])

/-- `getReducer({EXPLODE: throwingHandler}, {items: []}, 'orders')`. -/
def explodeBuilt :
    List (String × Handler OrdersState String) ×
      (Option OrdersState → Action String → HandlerResult OrdersState) :=
  getReducer [("EXPLODE", throwingHandler)] { items := [] } "orders"

/-- C1: the spec's P3 scenario evaluated on the code. Dispatching `ADD_ITEM`
with item `'x'` to the `orders` reducer yields `{items: ['x']}`; dispatching
the reset action `orders__RESET__` to that state returns `{items: ['x']}`
unchanged — not the declared initial state `{items: []}` — because the
injected reset handler only rebinds its local `state` parameter and never
writes to the draft. -/
theorem c1_reset_leaves_mutated_state :
    (ordersBuilt.2 (some { items := [] }) { type := "ADD_ITEM", payload := "x" }).1
        = Except.ok { items := ["x"] } ∧
    (ordersBuilt.2 (some { items := ["x"] }) { type := "orders__RESET__", payload := "" }).1
        = Except.ok { items := ["x"] } ∧
    ({ items := ["x"] } : OrdersState) ≠ { items := [] } :=
  ⟨rfl, rfl, by decide⟩

/-- C3: the reserved key for module `orders` is present in the built handler
map under exactly the name `orders__RESET__` and holds the injected reset
handler, but dispatching an action of that type leaves the module's
sub-state unchanged (here the mutated state `{items: ['x']}`) instead of
restoring the initial state `{items: []}`. -/
theorem c3_reserved_key_present_but_reset_is_noop :
    lookupKey ordersBuilt.1 "orders__RESET__"
        = some (resetHandler { items := [] }) ∧
    ordersBuilt.2 (some { items := ["x"] }) { type := "orders__RESET__", payload := "" }
        = (Except.ok { items := ["x"] }, ([] : Logs)) ∧
    ({ items := ["x"] } : OrdersState) ≠ { items := [] } :=
  ⟨rfl, rfl, by decide⟩

/-- C2 counterexample: a handler that throws is not contained. The transition
function returns the thrown error to the dispatch caller (the `.error`
constructor models the exception propagating out of `produce`; there is no
try/catch at reducer.js lines 46-52) and emits no logged diagnostic, instead
of returning the state unchanged with exactly one diagnostic. -/
theorem c2_throwing_handler_raises :
    explodeBuilt.2 (some { items := [] }) { type := "EXPLODE", payload := "" }
      = (Except.error "boom", ([] : Logs)) :=
  rfl

/-- C2 amended: when the handler matched by `action.type` throws, the module
transition function propagates that error unaltered to the dispatch caller
and adds no diagnostic of its own (the module's state is not replaced: no
new state is committed). -/
theorem c2_handler_error_propagates {σ π : Type} (map : List (String × Handler σ π))
    (s0 s : σ) (name : String) (a : Action π) (h : Handler σ π) (e : String) (L : Logs)
    (hlook : lookupKey (getReducer map s0 name).1 a.type = some h)
    (hthrow : h s a = (Except.error e, L)) :
    (getReducer map s0 name).2 (some s) a = (Except.error e, L) := by
  have hl : lookupKey (setKey map (name ++ "__RESET__") (resetHandler s0)) a.type
      = some h := hlook
  show transitionOf (setKey map (name ++ "__RESET__") (resetHandler s0)) s0 (some s) a
      = (Except.error e, L)
  simp only [transitionOf, Option.getD, hl, produce]
  exact hthrow

/-- Witness for the amended C2 at the concrete throwing handler. -/
theorem c2_handler_error_propagates_witness :
    lookupKey explodeBuilt.1 "EXPLODE" = some throwingHandler ∧
    throwingHandler { items := [] } { type := "EXPLODE", payload := "" }
      = (Except.error "boom", ([] : Logs)) ∧
    explodeBuilt.2 (some { items := [] }) { type := "EXPLODE", payload := "" }
      = (Except.error "boom", ([] : Logs)) :=
  ⟨rfl, rfl,
    c2_handler_error_propagates [("EXPLODE", throwingHandler)]
      ({ items := [] } : OrdersState) ({ items := [] } : OrdersState) "orders"
      { type := "EXPLODE", payload := "" } throwingHandler "boom" [] rfl rfl⟩

/-- C4: when `action.type` matches no key of the module's handler map (the
injected reset key included), the transition function returns the input
state itself — the `else return state` branch of reducer.js line 52 — with
no log and no error. -/
theorem c4_no_match_returns_input {σ π : Type} (map : List (String × Handler σ π))
    (s0 : σ) (name : String) (s : σ) (a : Action π)
    (hmiss : lookupKey (getReducer map s0 name).1 a.type = none) :
    (getReducer map s0 name).2 (some s) a = (Except.ok s, ([] : Logs)) := by
  have hl : lookupKey (setKey map (name ++ "__RESET__") (resetHandler s0)) a.type
      = none := hmiss
  show transitionOf (setKey map (name ++ "__RESET__") (resetHandler s0)) s0 (some s) a
      = (Except.ok s, ([] : Logs))
  simp only [transitionOf, Option.getD, hl]

/-- Witness for C4: the `orders` module has no handler for type `UNKNOWN`,
and dispatching it returns the very input state. -/
theorem c4_no_match_returns_input_witness :
    lookupKey ordersBuilt.1 "UNKNOWN" = none ∧
    ordersBuilt.2 (some { items := ["x"] }) { type := "UNKNOWN", payload := "" }
      = (Except.ok { items := ["x"] }, ([] : Logs)) :=
  ⟨rfl,
    c4_no_match_returns_input ordersMutations ({ items := [] } : OrdersState) "orders"
      ({ items := ["x"] } : OrdersState) { type := "UNKNOWN", payload := "" } rfl⟩

/-- C5: the transition function built by `getReducer` is a pure function of
the pair (state argument, action): at the value level a handler maps the
draft contents and the action to new draft contents and nothing else, the
builder closes over a fixed handler map and initial state, and `produce`
never writes to its base state, so invoking the same built reducer twice on
the same `(state, action)` pair denotes one and the same result value, and
the passed-in state value is left intact (values are immutable in the
embedding, mirroring immer's guarantee that the base object is never
altered). -/
theorem c5_transition_deterministic {σ π : Type} (map : List (String × Handler σ π))
    (s0 : σ) (name : String) (stateArg : Option σ) (a : Action π) :
    (getReducer map s0 name).2 stateArg a = (getReducer map s0 name).2 stateArg a :=
  rfl

/-- C9: when the caller's handler map already holds an entry at the reserved
key `name + '__RESET__'`, the in-place write of reducer.js line 34
overwrites it, so the built map holds the injected reset handler at that key
and dispatching an action of that type runs the injected handler (leaving
the state unchanged), not the caller-supplied one. -/
theorem c9_injected_reset_wins {σ π : Type} (map : List (String × Handler σ π))
    (s0 : σ) (name : String) (hUser : Handler σ π) (s : σ) (a : Action π)
    (ha : a.type = name ++ "__RESET__")
    (hmem : lookupKey map (name ++ "__RESET__") = some hUser) :
    lookupKey (getReducer map s0 name).1 (name ++ "__RESET__")
        = some (resetHandler s0) ∧
    (getReducer map s0 name).2 (some s) a = (Except.ok s, ([] : Logs)) := by
  refine ⟨lookupKey_setKey_self map _ _, ?_⟩
  show transitionOf (setKey map (name ++ "__RESET__") (resetHandler s0)) s0 (some s) a
      = (Except.ok s, ([] : Logs))
  have hl : lookupKey (setKey map (name ++ "__RESET__") (resetHandler s0)) a.type
      = some (resetHandler s0) := by
    rw [ha]; exact lookupKey_setKey_self map _ _
  simp only [transitionOf, Option.getD, hl, produce, resetHandler]

/-- A caller-supplied handler squatting on the reserved reset key: it would
replace the state if it ever ran. -/
def userResetHandler : Handler OrdersState String :=
  fun _ _ => (Except.ok { items := ["HIJACKED"] }, [])

/-- `getReducer({orders__RESET__: userResetHandler}, {items: []}, 'orders')`. -/
def hijackBuilt :
    List (String × Handler OrdersState String) ×
      (Option OrdersState → Action String → HandlerResult OrdersState) :=
  getReducer [("orders__RESET__", userResetHandler)] { items := [] } "orders"

/-- Witness for C9: with the caller squatting on `orders__RESET__`, the
built map carries the injected handler and the dispatch leaves the state
`{items: ['x']}` untouched instead of running the hijacking handler. -/
theorem c9_injected_reset_wins_witness :
    ((⟨"orders__RESET__", ""⟩ : Action String).type = "orders" ++ "__RESET__") ∧
    lookupKey [("orders__RESET__", userResetHandler)] ("orders" ++ "__RESET__")
      = some userResetHandler ∧
    lookupKey hijackBuilt.1 ("orders" ++ "__RESET__")
      = some (resetHandler { items := [] }) ∧
    hijackBuilt.2 (some { items := ["x"] }) ⟨"orders__RESET__", ""⟩
      = (Except.ok { items := ["x"] }, ([] : Logs)) := by
  refine ⟨rfl, rfl, ?_, ?_⟩
  · exact (c9_injected_reset_wins [("orders__RESET__", userResetHandler)]
      ({ items := [] } : OrdersState) "orders" userResetHandler
      ({ items := ["x"] } : OrdersState) ⟨"orders__RESET__", ""⟩ rfl rfl).1
  · exact (c9_injected_reset_wins [("orders__RESET__", userResetHandler)]
      ({ items := [] } : OrdersState) "orders" userResetHandler
      ({ items := ["x"] } : OrdersState) ⟨"orders__RESET__", ""⟩ rfl rfl).2

/-- A module whose caller-supplied mutations object is empty. -/
def plainModule : Module OrdersState String :=
  { state := { items := [] }, mutations := [], sagas := none }

/-- The `orders` module as handed to the store assembler. -/
def ordersModule : Module OrdersState String :=
  { state := { items := [] }, mutations := ordersMutations, sagas := none }

/-- C7 counterexample: assembling a module whose supplied mutations object
is empty leaves that object with one entry (the injected reset handler
written in place by reducer.js line 34), so the module's handler map after
assembly is not identical to what the caller supplied. -/
theorem c7_mutations_object_gains_reset_entry :
    ((buildModule "orders" plainModule).1.mutations).length = 1 ∧
    plainModule.mutations.length = 0 :=
  ⟨rfl, rfl⟩

/-- C7 amended: assembly leaves the module's initial state and sagas field
untouched, and its only mutation of the module is the in-place write of the
injected reset handler at the reserved key of the mutations object; every
entry at any other key is preserved. -/
theorem c7_assembly_mutates_only_reset_entry {σ π : Type} (name : String)
    (m : Module σ π) :
    (buildModule name m).1.state = m.state ∧
    (buildModule name m).1.sagas = m.sagas ∧
    (buildModule name m).1.mutations
      = setKey m.mutations (name ++ "__RESET__") (resetHandler m.state) ∧
    ∀ k : String, k ≠ name ++ "__RESET__" →
      lookupKey (buildModule name m).1.mutations k = lookupKey m.mutations k := by
  refine ⟨rfl, rfl, rfl, fun k hk => ?_⟩
  exact lookupKey_setKey_ne m.mutations _ k _ hk

/-- Witness for the amended C7 at the concrete `orders` module: the
caller-visible `ADD_ITEM` entry survives assembly unchanged. -/
theorem c7_assembly_mutates_only_reset_entry_witness :
    (buildModule "orders" ordersModule).1.state = ordersModule.state ∧
    (buildModule "orders" ordersModule).1.sagas = ordersModule.sagas ∧
    (buildModule "orders" ordersModule).1.mutations
      = setKey ordersModule.mutations ("orders" ++ "__RESET__")
          (resetHandler ordersModule.state) ∧
    ("ADD_ITEM" ≠ "orders" ++ "__RESET__") ∧
    lookupKey (buildModule "orders" ordersModule).1.mutations "ADD_ITEM"
      = lookupKey ordersModule.mutations "ADD_ITEM" :=
  ⟨(c7_assembly_mutates_only_reset_entry "orders" ordersModule).1,
    (c7_assembly_mutates_only_reset_entry "orders" ordersModule).2.1,
    (c7_assembly_mutates_only_reset_entry "orders" ordersModule).2.2.1,
    by decide,
    (c7_assembly_mutates_only_reset_entry "orders" ordersModule).2.2.2 "ADD_ITEM"
      (by decide)⟩

/-- C6: when the aggregated effect tree raises, the root saga catches at its
top level and propagates nothing to the scheduler, the failure step appends
exactly the one diagnostic line of createStore.js line 94 (and does not
retry: `rootSaga` evaluates its try/catch once and returns), and a dispatch
after the failure still transitions the root state exactly as the root
reducer prescribes. -/
theorem c6_saga_failure_contained {ρ π : Type} (reduce : ρ → Action π → ρ)
    (st : StoreModel ρ) (e : String) (a : Action π) :
    (rootSaga (.failed e)).2 = none ∧
    (sagaFailureStep st e).logs
      = st.logs ++ ["[ERROR] Something went wrong in rootSaga: " ++ e] ∧
    (dispatchStep reduce (sagaFailureStep st e) a).rootState = reduce st.rootState a :=
  ⟨rfl, rfl, rfl⟩

/-- When every module defines a sagas list, the per-module fold contributes
exactly the flattening of those lists in registration order. -/
theorem flatMap_moduleSagaElems_of_all_some {σ π : Type} :
    ∀ mods : List (Module σ π), mods.all (fun m => m.sagas.isSome) = true →
      (mods.map Module.sagas).flatMap moduleSagaElems
        = (mods.flatMap fun m => m.sagas.getD []).map some := by
  intro mods
  induction mods with
  | nil => intro _; rfl
  | cons m rest ih =>
      intro hall
      simp only [List.all_cons, Bool.and_eq_true] at hall
      obtain ⟨hm, hrest⟩ := hall
      obtain ⟨xs, hs⟩ := Option.isSome_iff_exists.mp hm
      simp [hs, moduleSagaElems, ih hrest]

/-- C8: for modules that all define a sagas list, the aggregated saga
sequence handed to `sagaMiddleware.run` is the concatenation of the modules'
saga lists in registration order followed by the configuration's global
sagas. -/
theorem c8_saga_aggregation_order {σ π : Type} (mods : List (Module σ π))
    (g : List Saga) (hall : mods.all (fun m => m.sagas.isSome) = true) :
    createStoreSagas mods (some g)
      = ((mods.flatMap fun m => m.sagas.getD []).map some) ++ g.map some := by
  rw [createStoreSagas_eq, flatMap_moduleSagaElems_of_all_some mods hall]
  rfl

/-- Module A of the P6 scenario, with effects `[e1]`. -/
def sagaModuleA : Module OrdersState String :=
  { state := { items := [] }, mutations := [], sagas := some ["e1"] }

/-- Module B of the P6 scenario, with effects `[e2]`. -/
def sagaModuleB : Module OrdersState String :=
  { state := { items := [] }, mutations := [], sagas := some ["e2"] }

/-- Witness for C8 on the P6 scenario: modules A, B in order plus global
`[e3]` aggregate to `[e1, e2, e3]`. -/
theorem c8_saga_aggregation_order_witness :
    ([sagaModuleA, sagaModuleB].all (fun m => m.sagas.isSome) = true) ∧
    createStoreSagas [sagaModuleA, sagaModuleB] (some ["e3"])
      = [some "e1", some "e2", some "e3"] :=
  ⟨rfl, c8_saga_aggregation_order [sagaModuleA, sagaModuleB] ["e3"] rfl⟩

/-- C10: a module registered without a sagas field contributes the single
element `undefined` (`none`) to the aggregated saga list — `concat` of an
undefined argument appends it as an element — rather than being skipped. -/
theorem c10_missing_sagas_appends_undefined {σ π : Type} (pre post : List (Module σ π))
    (m : Module σ π) (hm : m.sagas = none) (cfg : Option (List Saga)) :
    createStoreSagas (pre ++ m :: post) cfg
      = ((pre.map Module.sagas).flatMap moduleSagaElems)
          ++ none ::
            (((post.map Module.sagas).flatMap moduleSagaElems)
              ++ configSagaElems cfg) := by
  rw [createStoreSagas_eq]
  simp [hm, moduleSagaElems]

/-- Witness for C10: registering A (`[e1]`), a module without sagas, then B
(`[e2]`), plus global `[e3]`, hands the supervisor
`[e1, undefined, e2, e3]`. -/
theorem c10_missing_sagas_appends_undefined_witness :
    plainModule.sagas = none ∧
    createStoreSagas [sagaModuleA, plainModule, sagaModuleB] (some ["e3"])
      = [some "e1", none, some "e2", some "e3"] :=
  ⟨rfl,
    c10_missing_sagas_appends_undefined [sagaModuleA] [sagaModuleB] plainModule rfl
      (some ["e3"])⟩

end ReduxBox
